import Mathlib

/-!
Shallow embedding of the maas-billing control-plane / introspection core.

Byte strings are modelled as `List Nat` (each entry a byte value) and Go
strings as Lean `String`; all tokens and identifiers handled by the code are
ASCII, so Go byte indexing/length coincide with Lean character
indexing/length on the values that occur.
-/

set_option autoImplicit false

namespace MaasBilling

/-- Lowercase hexadecimal digit for a value below 16, as produced by Go
`encoding/hex`. -/
def hexDigitChar (n : Nat) : Char :=
  "0123456789abcdef".data.getD n '0'

/-- Hex encoding of a byte list, two lowercase digits per byte, as Go
`hex.EncodeToString`. -/
def hexEncodeList : List Nat → List Char
  | [] => []
  | b :: rest => hexDigitChar (b / 16) :: hexDigitChar (b % 16) :: hexEncodeList rest

/-- Hex encoding of a byte list as a string. -/
def hexEncode (bs : List Nat) : String :=
  String.mk (hexEncodeList bs)

/-- Value of a single hexadecimal digit character, `none` for a non-digit,
as Go `hex.DecodeString` digit handling. -/
def hexDigitVal (c : Char) : Option Nat :=
  if 48 ≤ c.toNat ∧ c.toNat ≤ 57 then some (c.toNat - 48)
  else if 97 ≤ c.toNat ∧ c.toNat ≤ 102 then some (c.toNat - 87)
  else if 65 ≤ c.toNat ∧ c.toNat ≤ 70 then some (c.toNat - 55)
  else none

/-- Hex decoding of a character list, two digits per byte; `none` on odd
length or a non-digit, as Go `hex.DecodeString`. -/
def hexDecodeChars : List Char → Option (List Nat)
  | [] => some []
  | [_] => none
  | c1 :: c2 :: rest =>
    match hexDigitVal c1, hexDigitVal c2, hexDecodeChars rest with
    | some h, some l, some bs => some ((h * 16 + l) :: bs)
    | _, _, _ => none

/-- Hex decoding of a string into bytes. -/
def hexDecode (s : String) : Option (List Nat) :=
  hexDecodeChars s.data

/-- The URL-safe base64 alphabet used by Go `base64.RawURLEncoding`. -/
def b64UrlAlphabet : List Char :=
  "ABCDEFGHIJKLMNOPQRSTUVWXYZabcdefghijklmnopqrstuvwxyz0123456789-_".data

/-- Character of the URL-safe base64 alphabet at a sextet value. -/
def b64char (n : Nat) : Char :=
  b64UrlAlphabet.getD n 'A'

/-- Unpadded URL-safe base64 of a byte list, as Go
`base64.RawURLEncoding.EncodeToString`: each 3-byte group becomes 4
characters, a 2-byte remainder 3 characters, a 1-byte remainder 2. -/
def b64encodeList : List Nat → List Char
  | b0 :: b1 :: b2 :: rest =>
    b64char (b0 / 4) :: b64char (b0 % 4 * 16 + b1 / 16) ::
    b64char (b1 % 16 * 4 + b2 / 64) :: b64char (b2 % 64) :: b64encodeList rest
  | [b0, b1] =>
    [b64char (b0 / 4), b64char (b0 % 4 * 16 + b1 / 16), b64char (b1 % 16 * 4)]
  | [b0] =>
    [b64char (b0 / 4), b64char (b0 % 4 * 16)]
  | [] => []

/-- Unpadded URL-safe base64 of a byte list, as a string. -/
def base64RawUrlEncode (bs : List Nat) : String :=
  String.mk (b64encodeList bs)

/-- Drop trailing NUL characters, as Go `strings.TrimRight(s, "\x00")`. -/
def trimRightNullChars (cs : List Char) : List Char :=
  (cs.reverse.dropWhile (fun c => c = Char.ofNat 0)).reverse

/-- Decode a byte list into the string with those character codes, as Go
`string(decoded)` on ASCII data. -/
def bytesToString (bs : List Nat) : String :=
  String.mk (bs.map Char.ofNat)

/-- Whether a string begins with a literal backslash followed by `x`, as
Go `strings.HasPrefix(s, "\\x")`. -/
def startsWithBackslashX (s : String) : Bool :=
  match s.data with
  | c1 :: c2 :: _ => c1 = '\\' && c2 = 'x'
  | _ => false

/-- Split a character list at commas, as Go `strings.Split(s, ",")` and
the CEL `split(",")` used by the rate-limit policy predicates. -/
def splitOnCommaChars : List Char → List (List Char)
  | [] => [[]]
  | c :: rest =>
    if c = ',' then [] :: splitOnCommaChars rest
    else
      match splitOnCommaChars rest with
      | g :: gs => (c :: g) :: gs
      | [] => [[c]]

/-- Split a string at commas into its comma-separated elements. -/
def splitOnComma (s : String) : List String :=
  (splitOnCommaChars s.data).map String.mk

namespace KeyManager

/-!
Model of the key-manager introspection service:
`deployment/kuadrant-openshift/key-manager/internal/handlers/introspect.go`
together with the database repository (`Repository` methods) and the
PostgreSQL schema (`api_keys`, `teams`, `policies`, `team_memberships`,
`models`, `model_grants`).
-/

/-- Row of the `api_keys` table (schema: `key_prefix` unique; `key_hash`
stores the key material; `status` in active/revoked/suspended;
`expires_at` nullable, null meaning never). -/
structure ApiKeyRow where
  id : String
  keyPfx : String
  keyHash : String
  salt : String
  teamId : String
  userId : Option String
  keyAlias : String
  status : String
  expiresAt : Option Int
  deriving Repr, DecidableEq

/-- Row of the `teams` table as used by the key-manager (with
`default_policy_id`). -/
structure Team where
  id : String
  extId : String
  name : String
  description : String
  defaultPolicyId : Option String
  deriving Repr, DecidableEq

/-- Row of the `policies` table (fields read by introspection). -/
structure Policy where
  id : String
  name : String
  deriving Repr, DecidableEq

/-- Row of the `team_memberships` table. -/
structure Membership where
  teamId : String
  userId : String
  deriving Repr, DecidableEq

/-- Row of the `models` table (fields read by the grant queries). -/
structure Model where
  id : String
  name : String
  status : String
  deriving Repr, DecidableEq

/-- Row of the `model_grants` table: `user_id` null means a team-wide
grant. -/
structure ModelGrant where
  teamId : String
  userId : Option String
  modelId : String
  deriving Repr, DecidableEq

/-- Database state visible to the introspection service. -/
structure Store where
  apiKeys : List ApiKeyRow
  teams : List Team
  policies : List Policy
  memberships : List Membership
  models : List Model
  modelGrants : List ModelGrant
  deriving Repr, DecidableEq

/-- `Repository.GetAPIKeyByPrefix`: `SELECT … FROM api_keys ak WHERE
ak.key_prefix = $1`.  The query filters on the prefix only; it has no
predicate on `status` or `expires_at`. -/
def getAPIKeyByPfx (s : Store) (p : String) : Option ApiKeyRow :=
  s.apiKeys.find? (fun k => k.keyPfx == p)

/-- `Repository.GetTeam`: `SELECT … FROM teams WHERE id = $1`. -/
def getTeam (s : Store) (teamId : String) : Option Team :=
  s.teams.find? (fun t => t.id == teamId)

/-- `Repository.GetPolicy`: `SELECT … FROM policies WHERE id = $1`. -/
def getPolicy (s : Store) (policyId : String) : Option Policy :=
  s.policies.find? (fun p => p.id == policyId)

/-- `Repository.IsTeamMember`: `SELECT EXISTS(SELECT 1 FROM
team_memberships WHERE team_id = $1 AND user_id = $2)`. -/
def isTeamMember (s : Store) (teamId userId : String) : Bool :=
  s.memberships.any (fun m => m.teamId == teamId && m.userId == userId)

/-- `Repository.GetUserModelsAllowed`: `SELECT DISTINCT m.name FROM models
m JOIN model_grants mg ON m.id = mg.model_id WHERE (mg.team_id = $1 OR
(mg.team_id = $1 AND mg.user_id = $2)) ORDER BY m.name`.  The WHERE clause
is embedded verbatim; note its second disjunct is subsumed by the
first. -/
def getUserModelsAllowed (s : Store) (userId teamId : String) : List String :=
  (s.models.filter (fun m =>
    s.modelGrants.any (fun g =>
      g.modelId == m.id &&
        (g.teamId == teamId || (g.teamId == teamId && g.userId == some userId))))).map
    (fun m => m.name)

/-- `Repository.GetUserModelAccess`: `SELECT DISTINCT … FROM models m
INNER JOIN model_grants mg ON m.id = mg.model_id WHERE mg.team_id = $1 AND
(mg.user_id IS NULL OR mg.user_id = $2) AND m.status = 'published'`. -/
def getUserModelAccess (s : Store) (userId teamId : String) : List String :=
  (s.models.filter (fun m =>
    m.status == "published" &&
      s.modelGrants.any (fun g =>
        g.modelId == m.id && g.teamId == teamId &&
          (g.userId == none || g.userId == some userId)))).map
    (fun m => m.name)

/-- `IdentityHandler.verifyAPIKey`: when the stored hash begins with a
literal backslash-x it is hex-decoded and NUL-stripped before comparison,
otherwise it is compared to the provided key directly.  The salt parameter
is unused, exactly as in the source. -/
def verifyAPIKey (providedKey storedHash salt : String) : Bool :=
  if startsWithBackslashX storedHash then
    match hexDecode (storedHash.drop 2) with
    | none => false
    | some decoded =>
      String.mk (trimRightNullChars (decoded.map Char.ofNat)) == providedKey
  else
    storedHash == providedKey

/-- The JSON body written by `IdentityHandler.Introspect`; absent
(`omitempty`) fields are the empty string / empty list. -/
structure IntrospectResponse where
  active : Bool := false
  apiKeyId : String := ""
  teamId : String := ""
  userId : String := ""
  group : String := ""
  modelsAllowed : List String := []
  policyId : String := ""
  error : String := ""
  deriving Repr, DecidableEq

/-- Response body for the failure branches that write `invalid_key`. -/
def invalidKeyResp : IntrospectResponse :=
  { active := false, error := "invalid_key" }

/-- `IdentityHandler.Introspect`, from the point where the `token` and
`run_as_user_id` fields have been read from the JSON or form body, as a
function returning the HTTP status code and the JSON body.  An empty
token fails body binding and is answered `400 invalid_request`; a token
shorter than 8 bytes, a prefix with no row, and a hash-verification
failure are each answered `401 invalid_key`; a credential with no subject
user requires a valid run-as member (`403` otherwise); the success path
answers `200` with claims assembled from the team, policy and grant
lookups. -/
def introspect (s : Store) (token runAsUserId : String) : Nat × IntrospectResponse :=
  if token = "" then
    (400, { active := false, error := "invalid_request" })
  else if token.length < 8 then
    (401, invalidKeyResp)
  else
    match getAPIKeyByPfx s (token.take 8) with
    | none => (401, invalidKeyResp)
    | some k =>
      if ¬ verifyAPIKey token k.keyHash k.salt then
        (401, invalidKeyResp)
      else if k.userId = none ∨ k.userId = some "" then
        -- team service key: Run-As is required
        if runAsUserId = "" then
          (403, { active := false, error := "run_as_required" })
        else if ¬ isTeamMember s k.teamId runAsUserId then
          (403, { active := false, error := "run_as_not_member" })
        else
          introspectResolved s k runAsUserId
      else
        introspectResolved s k (k.userId.getD "")
where
  /-- Tail of the handler after the effective user is fixed: load team,
  default policy, policy row and allowed models, then answer 200. -/
  introspectResolved (s : Store) (k : ApiKeyRow) (effUser : String) :
      Nat × IntrospectResponse :=
    match getTeam s k.teamId with
    | none => (401, invalidKeyResp)
    | some team =>
      match team.defaultPolicyId with
      | none => (401, invalidKeyResp)
      | some pid =>
        match getPolicy s pid with
        | none => (401, invalidKeyResp)
        | some policy =>
          (200,
            { active := true
              apiKeyId := k.id
              teamId := k.teamId
              userId := effUser
              group := "plan:" ++ policy.name
              modelsAllowed := getUserModelsAllowed s effUser k.teamId
              policyId := pid })

/-- Concrete store: one team with a default policy and one revoked
credential whose stored hash is its plaintext. -/
def storeC1 : Store :=
  { apiKeys := [{ id := "k1", keyPfx := "AAAABBBB", keyHash := "AAAABBBBCCCC"
                  salt := "73616c74", teamId := "t1", userId := some "u1"
                  keyAlias := "demo", status := "revoked", expiresAt := none }]
    teams := [{ id := "t1", extId := "team-orange", name := "Orange"
                description := "", defaultPolicyId := some "p1" }]
    policies := [{ id := "p1", name := "free" }]
    memberships := []
    models := []
    modelGrants := [] }

/-- Concrete store: a credential that is both revoked and already expired
(`expires_at` in the past relative to any reading of `now`). -/
def storeC2 : Store :=
  { apiKeys := [{ id := "k2", keyPfx := "QQQQWWWW", keyHash := "QQQQWWWWEEEE"
                  salt := "73616c74", teamId := "t2", userId := some "u2"
                  keyAlias := "old", status := "revoked", expiresAt := some (-1000) }]
    teams := [{ id := "t2", extId := "team-blue", name := "Blue"
                description := "", defaultPolicyId := some "p2" }]
    policies := [{ id := "p2", name := "premium" }]
    memberships := []
    models := []
    modelGrants := [] }

/-- Concrete store: an active user credential that introspects
successfully. -/
def storeC3 : Store :=
  { apiKeys := [{ id := "k3", keyPfx := "ZZZZXXXX", keyHash := "ZZZZXXXXCCCC"
                  salt := "73616c74", teamId := "t1", userId := some "u1"
                  keyAlias := "demo", status := "active", expiresAt := none }]
    teams := [{ id := "t1", extId := "team-orange", name := "Orange"
                description := "", defaultPolicyId := some "p1" }]
    policies := [{ id := "p1", name := "free" }]
    memberships := []
    models := []
    modelGrants := [] }

/-- Concrete store: one published model granted to user `userB` of team
`t1` only (no team-wide grant). -/
def storeC7 : Store :=
  { apiKeys := []
    teams := [{ id := "t1", extId := "team-orange", name := "Orange"
                description := "", defaultPolicyId := some "p1" }]
    policies := [{ id := "p1", name := "free" }]
    memberships := []
    models := [{ id := "m1", name := "modelX", status := "published" }]
    modelGrants := [{ teamId := "t1", userId := some "userB", modelId := "m1" }] }

/-- Concrete store: a team service credential (null subject) whose team
has the member `u2`. -/
def storeC10 : Store :=
  { apiKeys := [{ id := "k5", keyPfx := "SSSSDDDD", keyHash := "SSSSDDDDFFFF"
                  salt := "73616c74", teamId := "t1", userId := none
                  keyAlias := "svc", status := "active", expiresAt := none }]
    teams := [{ id := "t1", extId := "team-orange", name := "Orange"
                description := "", defaultPolicyId := some "p1" }]
    policies := [{ id := "p1", name := "free" }]
    memberships := [{ teamId := "t1", userId := "u2" }]
    models := []
    modelGrants := [] }

end KeyManager

namespace MaasV2

/-!
Model of the maas-api v2 database provider: the repository in
`maas-api/v2/internal/config/config.go` (second compilation unit of that
file), the key mint in `maas-api/v2/internal/keys` and the HTTP handlers
in `maas-api/v2/internal/handlers/teams.go` and the keys handler, over the
PostgreSQL schema with embedded team rate limits.
-/

/-- Row of the v2 `teams` table (rate limits embedded). -/
structure Team where
  id : String
  extId : String
  name : String
  description : String
  rateLimit : Int
  rateWindow : String
  rateLimitSpec : String
  deriving Repr, DecidableEq

/-- Row of the v2 `api_keys` table as carried by the Go `APIKey` struct. -/
structure ApiKey where
  id : String
  keyPfx : String
  keyHash : String
  salt : String
  teamId : String
  userId : Option String
  keyAlias : String
  deriving Repr, DecidableEq

/-- Row of the `users` table (fields read by the keys handler). -/
structure User where
  id : String
  email : String
  keycloakUserId : String
  deriving Repr, DecidableEq

/-- Row of the `team_memberships` table. -/
structure Membership where
  teamId : String
  userId : String
  deriving Repr, DecidableEq

/-- Row of the `model_grants` table. -/
structure ModelGrant where
  teamId : String
  userId : Option String
  modelId : String
  deriving Repr, DecidableEq

/-- Database state visible to the v2 control plane. -/
structure Store where
  teams : List Team
  apiKeys : List ApiKey
  users : List User
  memberships : List Membership
  modelGrants : List ModelGrant
  deriving Repr, DecidableEq

/-- Modelled from the spec: one entry of the external
`TokenRateLimitPolicy` document's limits map, keyed by tenant `ext_id`
with a single rate (limit, window).  The `PolicyManager` implementation
(`AddTeamToTokenRateLimit` / `RemoveTeamFromTokenRateLimit`) is not under
`src/`; only its call sites in the handlers are. -/
structure PolicyEntry where
  extId : String
  limit : Int
  window : String
  deriving Repr, DecidableEq

/-- Modelled from the spec: the limits map of the single
`TokenRateLimitPolicy` document. -/
abbrev PolicyDoc := List PolicyEntry

/-- Modelled from the spec: `PolicyManager.AddTeamToTokenRateLimit`
read-modify-writes the document, replacing the entry keyed by the team's
`ext_id`. -/
def addTeamToTokenRateLimit (doc : PolicyDoc) (extId : String) (limit : Int)
    (window : String) : PolicyDoc :=
  ⟨extId, limit, window⟩ :: doc.filter (fun e => e.extId != extId)

/-- Modelled from the spec: `PolicyManager.RemoveTeamFromTokenRateLimit`
drops the entry keyed by the team's `ext_id`. -/
def removeTeamFromTokenRateLimit (doc : PolicyDoc) (extId : String) : PolicyDoc :=
  doc.filter (fun e => e.extId != extId)

/-- Error cases of `Repository.CreateTeam`: the INSERT violates the
`teams_name_key` or `teams_ext_id_key` uniqueness constraint. -/
inductive CreateTeamErr where
  | dupName
  | dupExtId
  deriving Repr, DecidableEq

/-- `Repository.CreateTeam`: INSERT INTO teams with embedded rate limits;
a duplicate `name` or `ext_id` raises the corresponding constraint
violation.  The fresh row id (`uuid.New()` in the source) is passed in as
`newId`. -/
def createTeamRepo (s : Store) (newId extId name description : String)
    (rateLimit : Int) (rateWindow rateLimitSpec : String) :
    Except CreateTeamErr (Team × Store) :=
  if s.teams.any (fun t => t.name == name) then
    .error .dupName
  else if s.teams.any (fun t => t.extId == extId) then
    .error .dupExtId
  else
    let t : Team :=
      { id := newId, extId := extId, name := name, description := description
        rateLimit := rateLimit, rateWindow := rateWindow, rateLimitSpec := rateLimitSpec }
    .ok (t, { s with teams := t :: s.teams })

/-- Error cases of `Repository.UpdateTeam`. -/
inductive UpdateTeamErr where
  | noFields
  | notFound
  deriving Repr, DecidableEq

/-- `Repository.UpdateTeam`: dynamic UPDATE of the provided fields only
(`rate_limit_spec` is never in the SET list); errors when no field is
provided or the row is absent.  The handler always passes a valid row id,
so the source's UUID-format check is not a separate case. -/
def updateTeamRepo (s : Store) (teamId : String) (name? description? : Option String)
    (rateLimit? : Option Int) (rateWindow? : Option String) :
    Except UpdateTeamErr (Team × Store) :=
  if name? = none ∧ description? = none ∧ rateLimit? = none ∧ rateWindow? = none then
    .error .noFields
  else
    match s.teams.find? (fun t => t.id == teamId) with
    | none => .error .notFound
    | some t =>
      let t' : Team :=
        { t with
          name := name?.getD t.name
          description := description?.getD t.description
          rateLimit := rateLimit?.getD t.rateLimit
          rateWindow := rateWindow?.getD t.rateWindow }
      .ok (t', { s with teams := s.teams.map (fun u => if u.id == teamId then t' else u) })

/-- Result of `Repository.DeleteTeam`. -/
structure DeleteTeamResult where
  teamId : String
  extId : String
  name : String
  cascadedKeyCount : Nat
  deriving Repr, DecidableEq

/-- `Repository.DeleteTeam`: a single transaction that locks the team row
with `SELECT … FOR UPDATE`, counts the dependent `api_keys` rows, deletes
the team and lets `ON DELETE CASCADE` remove its keys, memberships and
grants, then commits.  The lock makes the transaction atomic with respect
to concurrent credential creation, which the embedding reflects by
modelling the whole transaction as one step. -/
def deleteTeamRepo (s : Store) (teamId : String) :
    Except Unit (DeleteTeamResult × Store) :=
  match s.teams.find? (fun t => t.id == teamId) with
  | none => .error ()
  | some t =>
    let keyCount := (s.apiKeys.filter (fun k => k.teamId == teamId)).length
    let s' : Store :=
      { s with
        teams := s.teams.filter (fun u => u.id != teamId)
        apiKeys := s.apiKeys.filter (fun k => k.teamId != teamId)
        memberships := s.memberships.filter (fun m => m.teamId != teamId)
        modelGrants := s.modelGrants.filter (fun g => g.teamId != teamId) }
    .ok ({ teamId := teamId, extId := t.extId, name := t.name
           cascadedKeyCount := keyCount }, s')

/-- `Repository.ListTeamAPIKeys`: `SELECT id, key_prefix, key_hash,
team_id, user_id, alias, created_at FROM api_keys WHERE team_id = $1`.
The projection includes `key_hash` but not `salt`, so the scanned struct
carries the hash and an empty salt. -/
def listTeamAPIKeysRepo (s : Store) (teamId : String) : List ApiKey :=
  (s.apiKeys.filter (fun k => k.teamId == teamId)).map (fun k => { k with salt := "" })

/-- `Repository.ListUserAPIKeys`: same projection filtered by
`user_id = $1`. -/
def listUserAPIKeysRepo (s : Store) (userId : String) : List ApiKey :=
  (s.apiKeys.filter (fun k => k.userId == some userId)).map (fun k => { k with salt := "" })

/-- `decodeStoredKey` in the v2 keys handler: a stored hash beginning with
a literal backslash-x is hex-decoded and NUL-stripped; anything else is
returned as-is. -/
def decodeStoredKey (raw : String) : String :=
  if raw = "" then ""
  else if startsWithBackslashX raw then
    match hexDecode (raw.drop 2) with
    | none => raw
    | some decoded => String.mk (trimRightNullChars (decoded.map Char.ofNat))
  else raw

/-- One element of the `keys` array in the GET /users/:user_id/keys
response body (`userKeyResponse` in the source): it carries a `key` field
holding the decoded stored hash. -/
structure UserKeyResponse where
  id : String
  keyAlias : String
  keyPfx : String
  key : String
  teamId : String
  teamExtId : String
  teamName : String
  userId : String
  deriving Repr, DecidableEq

/-- Body-building loop of `KeysHandler.ListUserKeys` for the resolved
target user: list the user's rows and emit one `userKeyResponse` per row,
with `Key := decodeStoredKey(key.KeyHash)` and team fields enriched by a
by-id lookup. -/
def listUserKeysResponse (s : Store) (targetUserId : String) : List UserKeyResponse :=
  (listUserAPIKeysRepo s targetUserId).map (fun k =>
    let team? := s.teams.find? (fun t => t.id == k.teamId)
    { id := k.id
      keyAlias := k.keyAlias
      keyPfx := k.keyPfx
      key := decodeStoredKey k.keyHash
      teamId := k.teamId
      teamExtId := (team?.map (fun t => t.extId)).getD ""
      teamName := (team?.map (fun t => t.name)).getD ""
      userId := targetUserId })

/-- Output of the key mint `Manager.generateAPIKey`. -/
structure GenKey where
  apiKey : String
  keyHash : String
  salt : String
  keyPfx : String
  deriving Repr, DecidableEq

/-- `Manager.generateAPIKey` in `maas-api/v2/internal/keys`: the 32 random
bytes (`keyBytes`) are encoded with unpadded URL-safe base64 into the
plaintext key, the prefix is its first 8 characters, the 16 random salt
bytes (`saltBytes`) are hex-encoded, and the hash column value is the
plaintext itself (Argon2 is a TODO in the source). -/
def generateAPIKey (keyBytes saltBytes : List Nat) : GenKey :=
  let apiKeyChars := b64encodeList keyBytes
  { apiKey := String.mk apiKeyChars
    keyHash := String.mk apiKeyChars
    salt := hexEncode saltBytes
    keyPfx := String.mk (apiKeyChars.take 8) }

/-- INSERT INTO `api_keys`: the schema's `key_prefix` UNIQUE constraint
rejects a row whose prefix is already present. -/
def insertAPIKeyRow (s : Store) (row : ApiKey) : Option Store :=
  if s.apiKeys.any (fun k => k.keyPfx == row.keyPfx) then none
  else some { s with apiKeys := row :: s.apiKeys }

/-- All credential prefixes in the store are pairwise distinct (the
schema's `key_prefix` UNIQUE constraint). -/
def pfxUnique (s : Store) : Prop :=
  s.apiKeys.Pairwise (fun a b => a.keyPfx ≠ b.keyPfx)

/-- Shape check standing in for `uuid.Parse` succeeding: 36 characters
with hyphens at positions 8, 13, 18 and 23 and hex digits elsewhere. -/
def uuidShape : List Char → Nat → Bool
  | [], i => i == 36
  | c :: rest, i =>
    (if i = 8 ∨ i = 13 ∨ i = 18 ∨ i = 23 then c = '-' else (hexDigitVal c).isSome)
      && uuidShape rest (i + 1)

/-- Predicate used by `resolveTeamRef` to decide between the by-id and
by-ext-id lookups. -/
def looksLikeUUID (r : String) : Bool :=
  uuidShape r.data 0

/-- `resolveTeamRef` in the v2 handlers: a UUID-shaped reference is looked
up by internal id, anything else by `ext_id`. -/
def resolveTeamRef (s : Store) (ref : String) : Option Team :=
  if looksLikeUUID ref then s.teams.find? (fun t => t.id == ref)
  else s.teams.find? (fun t => t.extId == ref)

/-- Body of POST /teams (`CreateTeamRequest`); `ext_id` and `name` carry
gin's `binding:"required"`. -/
structure CreateTeamReq where
  extId : String
  name : String
  description : String
  rateLimit : Int
  rateWindow : String
  rateLimitSpec : String
  deriving Repr, DecidableEq

/-- Observable outcome of a team create/update handler call: HTTP status,
the team row in the response body (if any), the database state and the
external policy document. -/
structure TeamHandlerOut where
  status : Nat
  team? : Option Team
  store : Store
  doc : PolicyDoc
  deriving DecidableEq

/-- `TeamsHandler.CreateTeam`: bind the body (missing required fields →
400), default `rate_limit` 0 to 100, `rate_window` "" to "1m" and derive
`rate_limit_spec` when empty, insert the row (duplicate → 409), then
attempt `AddTeamToTokenRateLimit`; a reconciliation failure (`recFails`)
is only logged — the handler still answers 200 with the committed row. -/
def createTeamHandler (s : Store) (doc : PolicyDoc) (newId : String)
    (req : CreateTeamReq) (recFails : Bool) : TeamHandlerOut :=
  if req.extId = "" ∨ req.name = "" then
    { status := 400, team? := none, store := s, doc := doc }
  else
    match createTeamRepo s newId req.extId req.name req.description
        (if req.rateLimit = 0 then 100 else req.rateLimit)
        (if req.rateWindow = "" then "1m" else req.rateWindow)
        (if req.rateLimitSpec = "" then
          "\x7b\"rates\":[\x7b\"limit\":"
            ++ toString (if req.rateLimit = 0 then 100 else req.rateLimit)
            ++ ",\"window\":\""
            ++ (if req.rateWindow = "" then "1m" else req.rateWindow)
            ++ "\"\x7d]\x7d"
         else req.rateLimitSpec) with
    | .error _ => { status := 409, team? := none, store := s, doc := doc }
    | .ok (t, s') =>
      { status := 200, team? := some t, store := s'
        doc :=
          if recFails then doc
          else addTeamToTokenRateLimit doc t.extId t.rateLimit t.rateWindow }

/-- Body of PATCH /teams/:team_id (`UpdateTeamRequest`); all fields
optional (the `rate_limit_spec` pointer is accepted but never forwarded to
the repository). -/
structure UpdateTeamReq where
  name? : Option String
  description? : Option String
  rateLimit? : Option Int
  rateWindow? : Option String
  deriving Repr, DecidableEq

/-- `TeamsHandler.UpdateTeam`: resolve the reference (404 when absent),
run the dynamic UPDATE (no provided field → 500, vanished row → 404),
and when the limit or window changed attempt `AddTeamToTokenRateLimit`;
a reconciliation failure is only logged — the handler still answers 200
with the committed row. -/
def updateTeamHandler (s : Store) (doc : PolicyDoc) (ref : String)
    (req : UpdateTeamReq) (recFails : Bool) : TeamHandlerOut :=
  match resolveTeamRef s ref with
  | none => { status := 404, team? := none, store := s, doc := doc }
  | some cur =>
    match updateTeamRepo s cur.id req.name? req.description? req.rateLimit? req.rateWindow? with
    | .error .notFound => { status := 404, team? := none, store := s, doc := doc }
    | .error .noFields => { status := 500, team? := none, store := s, doc := doc }
    | .ok (t, s') =>
      { status := 200, team? := some t, store := s'
        doc :=
          if ((match req.rateLimit? with
               | some l => l != cur.rateLimit
               | none => false) ||
              (match req.rateWindow? with
               | some w => w != cur.rateWindow
               | none => false)) && !recFails then
            addTeamToTokenRateLimit doc t.extId t.rateLimit t.rateWindow
          else doc }

/-- Observable outcome of DELETE /teams/:team_id. -/
structure DeleteHandlerOut where
  status : Nat
  result? : Option DeleteTeamResult
  store : Store
  doc : PolicyDoc
  deriving DecidableEq

/-- `TeamsHandler.DeleteTeam`: resolve the reference (404 when absent),
run the locked cascade delete, then attempt
`RemoveTeamFromTokenRateLimit`; a reconciliation failure is only logged —
the handler still answers 200 with the deletion result. -/
def deleteTeamHandler (s : Store) (doc : PolicyDoc) (ref : String)
    (recFails : Bool) : DeleteHandlerOut :=
  match resolveTeamRef s ref with
  | none => { status := 404, result? := none, store := s, doc := doc }
  | some t =>
    match deleteTeamRepo s t.id with
    | .error _ => { status := 404, result? := none, store := s, doc := doc }
    | .ok (res, s') =>
      { status := 200, result? := some res, store := s'
        doc := if recFails then doc else removeTeamFromTokenRateLimit doc res.extId }

/-- Key material minted from fixed draws of the RNG, used to exercise the
listing endpoints on a stored credential. -/
def mintedC4 : GenKey :=
  generateAPIKey (List.range 32) (List.range 16)

/-- Concrete store holding the credential minted as `mintedC4` for user
`u1` of team `t1`, stored exactly as `Repository.CreateAPIKey` persists
the mint's output (hash column = plaintext). -/
def storeC4 : Store :=
  { teams := [{ id := "t1", extId := "orange", name := "Orange", description := ""
                rateLimit := 100, rateWindow := "1m", rateLimitSpec := "" }]
    apiKeys := [{ id := "k1", keyPfx := mintedC4.keyPfx, keyHash := mintedC4.keyHash
                  salt := mintedC4.salt, teamId := "t1", userId := some "u1"
                  keyAlias := "demo" }]
    users := [{ id := "u1", email := "u1@example.com", keycloakUserId := "kc1" }]
    memberships := [{ teamId := "t1", userId := "u1" }]
    modelGrants := [] }

/-- Empty v2 store. -/
def storeEmpty : Store :=
  { teams := [], apiKeys := [], users := [], memberships := [], modelGrants := [] }

/-- Concrete store with a single team referenced by its `ext_id`
`teamx`. -/
def storeC8 : Store :=
  { teams := [{ id := "t8", extId := "teamx", name := "TeamX", description := ""
                rateLimit := 50, rateWindow := "1m", rateLimitSpec := "" }]
    apiKeys := [], users := [], memberships := [], modelGrants := [] }

/-- Concrete store for the delete-cascade witness: team `t9` owns two
credentials and one membership, a second team `t10` owns one
credential. -/
def storeC5 : Store :=
  { teams := [{ id := "t9", extId := "teamy", name := "TeamY", description := ""
                rateLimit := 10, rateWindow := "1m", rateLimitSpec := "" },
              { id := "t10", extId := "teamz", name := "TeamZ", description := ""
                rateLimit := 10, rateWindow := "1m", rateLimitSpec := "" }]
    apiKeys := [{ id := "ka", keyPfx := "AAAA1111", keyHash := "h", salt := ""
                  teamId := "t9", userId := some "u1", keyAlias := "a" },
                { id := "kb", keyPfx := "BBBB2222", keyHash := "h", salt := ""
                  teamId := "t9", userId := none, keyAlias := "b" },
                { id := "kc", keyPfx := "CCCC3333", keyHash := "h", salt := ""
                  teamId := "t10", userId := some "u1", keyAlias := "c" }]
    users := []
    memberships := [{ teamId := "t9", userId := "u1" }]
    modelGrants := [] }

end MaasV2

/-- Length of the unpadded URL-safe base64 encoding: four characters per
full 3-byte group, plus 2 or 3 for a remainder of 1 or 2 bytes. -/
theorem b64encodeList_length (l : List Nat) :
    (b64encodeList l).length =
      4 * (l.length / 3) + (if l.length % 3 = 0 then 0 else l.length % 3 + 1) := by
  induction l using b64encodeList.induct with
  | case1 b0 b1 b2 rest ih =>
    simp only [b64encodeList, List.length_cons, ih]
    have h3 : (rest.length + 1 + 1 + 1) = rest.length + 3 := by omega
    rw [h3, Nat.add_div_right _ (by norm_num), Nat.add_mod_right]
    by_cases h : rest.length % 3 = 0 <;> simp [h] <;> omega
  | case2 b0 b1 => simp [b64encodeList]
  | case3 b0 => simp [b64encodeList]
  | case4 => simp [b64encodeList]

/-- Length of hex encoding is two characters per byte. -/
theorem hexEncodeList_length (l : List Nat) :
    (hexEncodeList l).length = 2 * l.length := by
  induction l with
  | nil => simp [hexEncodeList]
  | cons b rest ih => simp [hexEncodeList, ih]; omega

/-- Claim C1 counterexample: the claim that every non-resolving
introspection request is answered with HTTP 200 and `active=false` fails
on the code: a 3-character token is answered with HTTP 401, and a revoked
credential is not rejected at all — its plaintext introspects to HTTP 200
with `active=true`. -/
theorem introspect_c1_counterexample :
    (KeyManager.introspect KeyManager.storeC1 "abc" "").1 = 401 ∧
    (KeyManager.introspect KeyManager.storeC1 "abc" "").1 ≠ 200 ∧
    (KeyManager.introspect KeyManager.storeC1 "AAAABBBBCCCC" "").1 = 200 ∧
    (KeyManager.introspect KeyManager.storeC1 "AAAABBBBCCCC" "").2.active = true ∧
    KeyManager.storeC1.apiKeys.map (fun k => k.status) = ["revoked"] := by
  decide

/-- Claim C1 (amended): an empty token fails body binding and is answered
HTTP 400 with `error=invalid_request`; for every introspection request
whose non-empty token is shorter than 8 characters, has an unknown
prefix, or fails hash verification, POST /introspect responds with HTTP
401 and the identical body `active=false`, `error=invalid_key`, so the
response does not reveal which of these three conditions triggered the
negative; credential status and expiry are not among the checked
conditions. -/
theorem introspect_c1_negative_uniform (s : KeyManager.Store) (t r : String)
    (ht : t ≠ "")
    (hneg : t.length < 8 ∨ KeyManager.getAPIKeyByPfx s (t.take 8) = none ∨
      (∃ k, KeyManager.getAPIKeyByPfx s (t.take 8) = some k ∧
        KeyManager.verifyAPIKey t k.keyHash k.salt = false)) :
    KeyManager.introspect s "" r =
      (400, { active := false, error := "invalid_request" }) ∧
    KeyManager.introspect s t r = (401, KeyManager.invalidKeyResp) := by
  constructor
  · simp [KeyManager.introspect]
  · by_cases hlen : t.length < 8
    · simp [KeyManager.introspect, ht, hlen]
    · rcases hneg with h | hnone | ⟨k, hk, hv⟩
      · exact absurd h hlen
      · simp [KeyManager.introspect, ht, hlen, hnone]
      · simp [KeyManager.introspect, ht, hlen, hk, hv]

/-- Claim C1 witness: the empty-token 400 and the uniform 401 negative at
a concrete store and a concrete short token. -/
theorem introspect_c1_negative_uniform_witness :
    KeyManager.introspect KeyManager.storeC1 "" "" =
      (400, { active := false, error := "invalid_request" }) ∧
    KeyManager.introspect KeyManager.storeC1 "abc" "" = (401, KeyManager.invalidKeyResp) :=
  introspect_c1_negative_uniform KeyManager.storeC1 "abc" "" (by decide)
    (Or.inl (by decide))

/-- Claim C2: the code never consults `status` or `expires_at`; a
credential that is both revoked and expired still introspects to HTTP 200
with `active=true`, contradicting the claim. -/
theorem introspect_c2_revoked_active :
    KeyManager.storeC2.apiKeys.map (fun k => (k.status, k.expiresAt)) =
      [("revoked", some (-1000))] ∧
    (KeyManager.introspect KeyManager.storeC2 "QQQQWWWWEEEE" "").1 = 200 ∧
    (KeyManager.introspect KeyManager.storeC2 "QQQQWWWWEEEE" "").2.active = true := by
  decide

/-- Claim C3: on a successful introspection the code emits a single
`group` claim equal to `plan:` followed by the policy name and a
`team_id` equal to the credential's internal team id; splitting the group
claim on commas yields no element equal to the tenant's `ext_id`, and its
first element differs from the returned `team_id`, contradicting the
claim. -/
theorem introspect_c3_group_shape :
    KeyManager.introspect KeyManager.storeC3 "ZZZZXXXXCCCC" "" =
      (200, { active := true, apiKeyId := "k3", teamId := "t1", userId := "u1"
              group := "plan:free", modelsAllowed := [], policyId := "p1" }) ∧
    (KeyManager.getTeam KeyManager.storeC3 "t1").map (fun t => t.extId) =
      some "team-orange" ∧
    splitOnComma "plan:free" = ["plan:free"] ∧
    ¬ "team-orange" ∈ splitOnComma "plan:free" ∧
    (splitOnComma "plan:free").headD "" ≠ "t1" := by
  decide

/-- Claim C7: the grant query's WHERE clause `(mg.team_id = $1 OR
(mg.team_id = $1 AND mg.user_id = $2))` degenerates to a team-wide match,
so introspection for `userA` returns a model granted only to `userB` of
the same team; the sibling query `GetUserModelAccess` with the intended
predicate excludes it. -/
theorem getUserModelsAllowed_c7_cross_user_leak :
    KeyManager.getUserModelsAllowed KeyManager.storeC7 "userA" "t1" = ["modelX"] ∧
    KeyManager.storeC7.modelGrants.map (fun g => g.userId) = [some "userB"] ∧
    KeyManager.getUserModelAccess KeyManager.storeC7 "userA" "t1" = [] := by
  decide

/-- Claim C10: for a credential with no subject user (team service key),
introspection answers `active=false` with error `run_as_required` when no
`run_as_user_id` is supplied, `active=false` with error
`run_as_not_member` when the supplied run-as user is not a member of the
credential's team, and on success the response's `user_id` equals the
supplied run-as user. -/
theorem introspect_c10_run_as (s : KeyManager.Store) (t r : String)
    (k : KeyManager.ApiKeyRow)
    (ht : t ≠ "") (hlen : ¬ t.length < 8)
    (hk : KeyManager.getAPIKeyByPfx s (t.take 8) = some k)
    (hv : KeyManager.verifyAPIKey t k.keyHash k.salt = true)
    (hsvc : k.userId = none) :
    (r = "" →
      KeyManager.introspect s t r =
        (403, { active := false, error := "run_as_required" })) ∧
    (r ≠ "" → KeyManager.isTeamMember s k.teamId r = false →
      KeyManager.introspect s t r =
        (403, { active := false, error := "run_as_not_member" })) ∧
    (KeyManager.isTeamMember s k.teamId r = true →
      (KeyManager.introspect s t r).1 = 200 →
      (KeyManager.introspect s t r).2.userId = r) := by
  refine ⟨?_, ?_, ?_⟩
  · intro hr
    simp [KeyManager.introspect, ht, hlen, hk, hv, hsvc, hr]
  · intro hr hm
    simp [KeyManager.introspect, ht, hlen, hk, hv, hsvc, hr, hm]
  · intro hm h200
    have hred : KeyManager.introspect s t r =
        KeyManager.introspect.introspectResolved s k r := by
      by_cases hr : r = ""
      · exfalso
        have hbad : KeyManager.introspect s t r =
            (403, { active := false, error := "run_as_required" }) := by
          simp [KeyManager.introspect, ht, hlen, hk, hv, hsvc, hr]
        rw [hbad] at h200
        simp at h200
      · simp [KeyManager.introspect, ht, hlen, hk, hv, hsvc, hr, hm]
    rw [hred] at h200 ⊢
    unfold KeyManager.introspect.introspectResolved at h200 ⊢
    split at h200
    · simp at h200
    · split at h200
      · simp at h200
      · split at h200
        · simp at h200
        · rfl

/-- Claim C10 witness: the three run-as behaviours at a concrete store
holding a team service credential whose team has member `u2`. -/
theorem introspect_c10_run_as_witness :
    KeyManager.introspect KeyManager.storeC10 "SSSSDDDDFFFF" "" =
      (403, { active := false, error := "run_as_required" }) ∧
    KeyManager.introspect KeyManager.storeC10 "SSSSDDDDFFFF" "u9" =
      (403, { active := false, error := "run_as_not_member" }) ∧
    (KeyManager.introspect KeyManager.storeC10 "SSSSDDDDFFFF" "u2").2.userId = "u2" :=
  ⟨(introspect_c10_run_as KeyManager.storeC10 "SSSSDDDDFFFF" ""
      { id := "k5", keyPfx := "SSSSDDDD", keyHash := "SSSSDDDDFFFF"
        salt := "73616c74", teamId := "t1", userId := none
        keyAlias := "svc", status := "active", expiresAt := none }
      (by decide) (by decide) (by decide) (by decide) rfl).1 rfl,
   (introspect_c10_run_as KeyManager.storeC10 "SSSSDDDDFFFF" "u9"
      { id := "k5", keyPfx := "SSSSDDDD", keyHash := "SSSSDDDDFFFF"
        salt := "73616c74", teamId := "t1", userId := none
        keyAlias := "svc", status := "active", expiresAt := none }
      (by decide) (by decide) (by decide) (by decide) rfl).2.1 (by decide) (by decide),
   (introspect_c10_run_as KeyManager.storeC10 "SSSSDDDDFFFF" "u2"
      { id := "k5", keyPfx := "SSSSDDDD", keyHash := "SSSSDDDDFFFF"
        salt := "73616c74", teamId := "t1", userId := none
        keyAlias := "svc", status := "active", expiresAt := none }
      (by decide) (by decide) (by decide) (by decide) rfl).2.2 (by decide) (by decide)⟩

/-- Claim C5: when DELETE /teams/{ref} succeeds, the handler answers 200,
the returned cascaded key count equals the number of credentials owned by
the resolved team at deletion time, and the resulting store holds no
credential of that team; the deleting transaction (modelled as one atomic
step, reflecting the `SELECT … FOR UPDATE` row lock) performs the count
and the cascade together. -/
theorem deleteTeam_c5_cascade (s : MaasV2.Store) (doc : MaasV2.PolicyDoc)
    (ref : String) (recFails : Bool) (t : MaasV2.Team)
    (hres : MaasV2.resolveTeamRef s ref = some t) :
    ∃ res s₂ doc₂,
      MaasV2.deleteTeamHandler s doc ref recFails =
        { status := 200, result? := some res, store := s₂, doc := doc₂ } ∧
      res.cascadedKeyCount = (s.apiKeys.filter (fun k => k.teamId == t.id)).length ∧
      s₂.apiKeys.filter (fun k => k.teamId == t.id) = [] := by
  have hmem : ∃ u ∈ s.teams, (u.id == t.id) = true := by
    unfold MaasV2.resolveTeamRef at hres
    by_cases hu : MaasV2.looksLikeUUID ref
    · rw [if_pos hu] at hres
      exact ⟨t, List.mem_of_find?_eq_some hres, by simp⟩
    · rw [if_neg hu] at hres
      exact ⟨t, List.mem_of_find?_eq_some hres, by simp⟩
  have hsome : (s.teams.find? (fun x => x.id == t.id)).isSome := by
    rw [List.find?_isSome]
    exact hmem
  obtain ⟨u, hufind⟩ := Option.isSome_iff_exists.mp hsome
  simp only [MaasV2.deleteTeamHandler, hres, MaasV2.deleteTeamRepo, hufind]
  refine ⟨_, _, _, rfl, rfl, ?_⟩
  rw [List.filter_eq_nil_iff]
  intro a ha
  have hne := (List.mem_filter.mp ha).2
  simp only [bne] at hne
  intro hcontra
  rw [hcontra] at hne
  simp at hne

/-- Claim C5 witness: deleting team `teamy`, which owns two of the three
stored credentials, cascades exactly those two. -/
theorem deleteTeam_c5_cascade_witness :
    ∃ res s₂ doc₂,
      MaasV2.deleteTeamHandler MaasV2.storeC5 [] "teamy" false =
        { status := 200, result? := some res, store := s₂, doc := doc₂ } ∧
      res.cascadedKeyCount =
        (MaasV2.storeC5.apiKeys.filter (fun k => k.teamId == "t9")).length ∧
      s₂.apiKeys.filter (fun k => k.teamId == "t9") = [] :=
  deleteTeam_c5_cascade MaasV2.storeC5 [] "teamy" false
    { id := "t9", extId := "teamy", name := "TeamY", description := ""
      rateLimit := 10, rateWindow := "1m", rateLimitSpec := "" } (by decide)

/-- Claim C6: for any 32-byte random draw and 16-byte salt draw, the mint
produces a plaintext equal to the unpadded URL-safe base64 of the key
bytes, exactly 43 characters long; the stored prefix is the first 8
characters of the plaintext (hence 8 characters long); the salt is stored
hex-encoded (32 hex characters for 16 bytes); the hash column stores the
plaintext itself; and inserting a credential row preserves prefix
uniqueness, since the schema's UNIQUE constraint rejects a duplicate
prefix. -/
theorem generateAPIKey_c6_shape (keyBytes saltBytes : List Nat)
    (hkb : keyBytes.length = 32) (hsb : saltBytes.length = 16) :
    (MaasV2.generateAPIKey keyBytes saltBytes).apiKey = base64RawUrlEncode keyBytes ∧
    (MaasV2.generateAPIKey keyBytes saltBytes).apiKey.length = 43 ∧
    (MaasV2.generateAPIKey keyBytes saltBytes).keyPfx.data =
      (MaasV2.generateAPIKey keyBytes saltBytes).apiKey.data.take 8 ∧
    (MaasV2.generateAPIKey keyBytes saltBytes).keyPfx.length = 8 ∧
    (MaasV2.generateAPIKey keyBytes saltBytes).salt = hexEncode saltBytes ∧
    (MaasV2.generateAPIKey keyBytes saltBytes).salt.length = 32 ∧
    (MaasV2.generateAPIKey keyBytes saltBytes).keyHash =
      (MaasV2.generateAPIKey keyBytes saltBytes).apiKey ∧
    (∀ st row st₂, MaasV2.pfxUnique st → MaasV2.insertAPIKeyRow st row = some st₂ →
      MaasV2.pfxUnique st₂) := by
  have hlen : (MaasV2.generateAPIKey keyBytes saltBytes).apiKey.length =
      (b64encodeList keyBytes).length := rfl
  have henc : (b64encodeList keyBytes).length = 43 := by
    rw [b64encodeList_length, hkb]
    decide
  have hpfx : (MaasV2.generateAPIKey keyBytes saltBytes).keyPfx.length =
      ((b64encodeList keyBytes).take 8).length := rfl
  have hsalt : (MaasV2.generateAPIKey keyBytes saltBytes).salt.length =
      (hexEncodeList saltBytes).length := rfl
  refine ⟨rfl, by rw [hlen, henc], rfl, ?_, rfl, ?_, rfl, ?_⟩
  · rw [hpfx, List.length_take, henc]
    decide
  · rw [hsalt, hexEncodeList_length, hsb]
  · intro st row st₂ huniq hins
    unfold MaasV2.insertAPIKeyRow at hins
    by_cases hdup : st.apiKeys.any (fun k => k.keyPfx == row.keyPfx)
    · rw [if_pos hdup] at hins
      exact absurd hins (by simp)
    · rw [if_neg hdup] at hins
      have hst₂ : st₂.apiKeys = row :: st.apiKeys := by
        cases hins
        rfl
      unfold MaasV2.pfxUnique
      rw [hst₂, List.pairwise_cons]
      refine ⟨?_, huniq⟩
      intro a ha hcontra
      apply hdup
      rw [List.any_eq_true]
      exact ⟨a, ha, by rw [hcontra]; simp⟩

/-- Claim C6 witness: the mint's shape at a concrete 32-byte draw and a
concrete 16-byte salt draw. -/
theorem generateAPIKey_c6_shape_witness :
    (MaasV2.generateAPIKey (List.range 32) (List.range 16)).apiKey =
      base64RawUrlEncode (List.range 32) ∧
    (MaasV2.generateAPIKey (List.range 32) (List.range 16)).apiKey.length = 43 ∧
    (MaasV2.generateAPIKey (List.range 32) (List.range 16)).keyPfx.data =
      (MaasV2.generateAPIKey (List.range 32) (List.range 16)).apiKey.data.take 8 ∧
    (MaasV2.generateAPIKey (List.range 32) (List.range 16)).keyPfx.length = 8 ∧
    (MaasV2.generateAPIKey (List.range 32) (List.range 16)).salt =
      hexEncode (List.range 16) ∧
    (MaasV2.generateAPIKey (List.range 32) (List.range 16)).salt.length = 32 ∧
    (MaasV2.generateAPIKey (List.range 32) (List.range 16)).keyHash =
      (MaasV2.generateAPIKey (List.range 32) (List.range 16)).apiKey ∧
    (∀ st row st₂, MaasV2.pfxUnique st → MaasV2.insertAPIKeyRow st row = some st₂ →
      MaasV2.pfxUnique st₂) :=
  generateAPIKey_c6_shape (List.range 32) (List.range 16) (by decide) (by decide)

/-- Claim C9: the observable outcome of the create, update and delete
team handlers — HTTP status, response body and database state — is the
same whether the TokenRateLimitPolicy reconciliation succeeds or fails;
the failure only leaves the external policy document unchanged, so the
committed database write is returned to the caller and never rolled
back. -/
theorem teamHandlers_c9_reconciler_independent (s : MaasV2.Store)
    (doc : MaasV2.PolicyDoc) (newId ref : String) (creq : MaasV2.CreateTeamReq)
    (ureq : MaasV2.UpdateTeamReq) (recFails : Bool) :
    (MaasV2.createTeamHandler s doc newId creq recFails).status =
      (MaasV2.createTeamHandler s doc newId creq false).status ∧
    (MaasV2.createTeamHandler s doc newId creq recFails).team? =
      (MaasV2.createTeamHandler s doc newId creq false).team? ∧
    (MaasV2.createTeamHandler s doc newId creq recFails).store =
      (MaasV2.createTeamHandler s doc newId creq false).store ∧
    (MaasV2.updateTeamHandler s doc ref ureq recFails).status =
      (MaasV2.updateTeamHandler s doc ref ureq false).status ∧
    (MaasV2.updateTeamHandler s doc ref ureq recFails).team? =
      (MaasV2.updateTeamHandler s doc ref ureq false).team? ∧
    (MaasV2.updateTeamHandler s doc ref ureq recFails).store =
      (MaasV2.updateTeamHandler s doc ref ureq false).store ∧
    (MaasV2.deleteTeamHandler s doc ref recFails).status =
      (MaasV2.deleteTeamHandler s doc ref false).status ∧
    (MaasV2.deleteTeamHandler s doc ref recFails).result? =
      (MaasV2.deleteTeamHandler s doc ref false).result? ∧
    (MaasV2.deleteTeamHandler s doc ref recFails).store =
      (MaasV2.deleteTeamHandler s doc ref false).store := by
  unfold MaasV2.createTeamHandler MaasV2.updateTeamHandler MaasV2.deleteTeamHandler
  refine ⟨?_, ?_, ?_, ?_, ?_, ?_, ?_, ?_, ?_⟩ <;>
    repeat first | rfl | split

/-- Claim C8 counterexample: POST /teams with `rate_limit = 0` is not
answered 400 — the handler substitutes the default 100 and answers 200 —
and PATCH /teams/{ref} with `rate_limit = 0` writes the tenant row with
`rate_limit = 0` and answers 200. -/
theorem teamHandlers_c8_counterexample :
    (MaasV2.createTeamHandler MaasV2.storeEmpty [] "id1"
      { extId := "t", name := "n", description := "", rateLimit := 0
        rateWindow := "", rateLimitSpec := "" } false).status = 200 ∧
    ((MaasV2.createTeamHandler MaasV2.storeEmpty [] "id1"
      { extId := "t", name := "n", description := "", rateLimit := 0
        rateWindow := "", rateLimitSpec := "" } false).team?).map
        (fun t => t.rateLimit) = some 100 ∧
    (MaasV2.updateTeamHandler MaasV2.storeC8 [] "teamx"
      { name? := none, description? := none, rateLimit? := some 0
        rateWindow? := none } false).status = 200 ∧
    ((MaasV2.updateTeamHandler MaasV2.storeC8 [] "teamx"
      { name? := none, description? := none, rateLimit? := some 0
        rateWindow? := none } false).store.teams.map (fun t => t.rateLimit)) = [0] := by
  decide

/-- Claim C8 (amended): POST /teams with `rate_limit = 0` succeeds with
HTTP 200, the created row carrying the default limit 100 and the window
defaulted to `1m` only when empty — any other window string is accepted
without validation; PATCH /teams/{ref} with `rate_limit = 0` succeeds
with HTTP 200 and writes the row with `rate_limit = 0`. -/
theorem teamHandlers_c8_defaults (s : MaasV2.Store) (doc : MaasV2.PolicyDoc)
    (newId : String) (req : MaasV2.CreateTeamReq) (recFails : Bool)
    (hext : ¬ req.extId = "") (hname : ¬ req.name = "")
    (hzero : req.rateLimit = 0)
    (hdupn : s.teams.any (fun t => t.name == req.name) = false)
    (hdupe : s.teams.any (fun t => t.extId == req.extId) = false) :
    (MaasV2.createTeamHandler s doc newId req recFails).status = 200 ∧
    ((MaasV2.createTeamHandler s doc newId req recFails).team?).map
      (fun t => t.rateLimit) = some 100 ∧
    ((MaasV2.createTeamHandler s doc newId req recFails).team?).map
      (fun t => t.rateWindow) =
        some (if req.rateWindow = "" then "1m" else req.rateWindow) ∧
    (∀ (s₂ : MaasV2.Store) (doc₂ : MaasV2.PolicyDoc) (ref : String)
        (cur : MaasV2.Team) (rf : Bool),
      MaasV2.resolveTeamRef s₂ ref = some cur →
      (MaasV2.updateTeamHandler s₂ doc₂ ref
        { name? := none, description? := none, rateLimit? := some 0
          rateWindow? := none } rf).status = 200 ∧
      ((MaasV2.updateTeamHandler s₂ doc₂ ref
        { name? := none, description? := none, rateLimit? := some 0
          rateWindow? := none } rf).team?).map (fun t => t.rateLimit) = some 0) := by
  refine ⟨?_, ?_, ?_, ?_⟩
  · simp [MaasV2.createTeamHandler, MaasV2.createTeamRepo, hext, hname, hzero, hdupn, hdupe]
  · simp [MaasV2.createTeamHandler, MaasV2.createTeamRepo, hext, hname, hzero, hdupn, hdupe]
  · simp [MaasV2.createTeamHandler, MaasV2.createTeamRepo, hext, hname, hzero, hdupn, hdupe]
  · intro s₂ doc₂ ref cur rf hres
    have hmem : ∃ u ∈ s₂.teams, (u.id == cur.id) = true := by
      unfold MaasV2.resolveTeamRef at hres
      by_cases hu : MaasV2.looksLikeUUID ref
      · rw [if_pos hu] at hres
        exact ⟨cur, List.mem_of_find?_eq_some hres, by simp⟩
      · rw [if_neg hu] at hres
        exact ⟨cur, List.mem_of_find?_eq_some hres, by simp⟩
    have hsome : (s₂.teams.find? (fun x => x.id == cur.id)).isSome := by
      rw [List.find?_isSome]
      exact hmem
    obtain ⟨u, hufind⟩ := Option.isSome_iff_exists.mp hsome
    constructor
    · simp [MaasV2.updateTeamHandler, hres, MaasV2.updateTeamRepo, hufind]
    · simp [MaasV2.updateTeamHandler, hres, MaasV2.updateTeamRepo, hufind]

/-- Claim C8 witness: the amended behaviour at a concrete empty store and
a concrete one-team store. -/
theorem teamHandlers_c8_defaults_witness :
    (MaasV2.createTeamHandler MaasV2.storeEmpty [] "id1"
      { extId := "t", name := "n", description := "", rateLimit := 0
        rateWindow := "7q", rateLimitSpec := "" } false).status = 200 ∧
    ((MaasV2.createTeamHandler MaasV2.storeEmpty [] "id1"
      { extId := "t", name := "n", description := "", rateLimit := 0
        rateWindow := "7q", rateLimitSpec := "" } false).team?).map
        (fun t => t.rateLimit) = some 100 ∧
    ((MaasV2.createTeamHandler MaasV2.storeEmpty [] "id1"
      { extId := "t", name := "n", description := "", rateLimit := 0
        rateWindow := "7q", rateLimitSpec := "" } false).team?).map
        (fun t => t.rateWindow) = some (if ("7q" : String) = "" then "1m" else "7q") ∧
    (∀ (s₂ : MaasV2.Store) (doc₂ : MaasV2.PolicyDoc) (ref : String)
        (cur : MaasV2.Team) (rf : Bool),
      MaasV2.resolveTeamRef s₂ ref = some cur →
      (MaasV2.updateTeamHandler s₂ doc₂ ref
        { name? := none, description? := none, rateLimit? := some 0
          rateWindow? := none } rf).status = 200 ∧
      ((MaasV2.updateTeamHandler s₂ doc₂ ref
        { name? := none, description? := none, rateLimit? := some 0
          rateWindow? := none } rf).team?).map (fun t => t.rateLimit) = some 0) :=
  teamHandlers_c8_defaults MaasV2.storeEmpty [] "id1"
    { extId := "t", name := "n", description := "", rateLimit := 0
      rateWindow := "7q", rateLimitSpec := "" } false
    (by decide) (by decide) rfl (by decide) (by decide)

/-- Claim C4 counterexample: a credential minted from concrete RNG draws
and stored as the mint persists it (hash column = plaintext) has its full
plaintext returned again by the credential listings: the user listing's
`key` field and the team listing's `key_hash` field both equal the
43-character plaintext. -/
theorem listKeys_c4_counterexample :
    (MaasV2.listUserKeysResponse MaasV2.storeC4 "u1").map (fun r => r.key) =
      [MaasV2.mintedC4.apiKey] ∧
    (MaasV2.listTeamAPIKeysRepo MaasV2.storeC4 "t1").map (fun k => k.keyHash) =
      [MaasV2.mintedC4.apiKey] ∧
    MaasV2.mintedC4.apiKey.length = 43 := by
  decide

/-- Claim C4 (amended): the credential listings omit the salt value (the
SQL projection never selects it, so the scanned field is empty) but both
expose the stored `key_hash`: the user listing returns it decoded in each
entry's `key` field and the team listing returns it verbatim; because the
hash column stores the plaintext, a previously minted key's plaintext is
recoverable from either listing. -/
theorem listKeys_c4_exposes_hash (s : MaasV2.Store) (uid tid : String) :
    (MaasV2.listUserKeysResponse s uid).map (fun r => r.key) =
      (MaasV2.listUserAPIKeysRepo s uid).map
        (fun k => MaasV2.decodeStoredKey k.keyHash) ∧
    (MaasV2.listUserAPIKeysRepo s uid).map (fun k => k.salt) =
      (MaasV2.listUserAPIKeysRepo s uid).map (fun _ => "") ∧
    (MaasV2.listTeamAPIKeysRepo s tid).map (fun k => k.salt) =
      (MaasV2.listTeamAPIKeysRepo s tid).map (fun _ => "") ∧
    (MaasV2.listTeamAPIKeysRepo s tid).map (fun k => k.keyHash) =
      (s.apiKeys.filter (fun k => k.teamId == tid)).map (fun k => k.keyHash) := by
  refine ⟨?_, ?_, ?_, ?_⟩ <;>
    simp [MaasV2.listUserKeysResponse, MaasV2.listUserAPIKeysRepo,
      MaasV2.listTeamAPIKeysRepo, List.map_map, Function.comp]

end MaasBilling
